import Mathlib

/-!
Shallow embedding of the client-side analytics / cart-abandonment engine
(`src/unnamed/part_007`, `class Analytics` and the module-level helpers
`checkAbandonedCartGlobal`, `startPeriodicAbandonmentCheck`).

Timestamps are milliseconds since the epoch, modelled as `Nat`; elapsed-time
arithmetic that can be negative in JavaScript is carried out in `Int`.
Prices and quantities are JavaScript numbers; the claims about them are
value-level (presence, zero-ness, products), so they are modelled as `ℚ`.
`localStorage.getItem` is modelled as `Option` content; `JSON.parse` of that
content is modelled as a further `Option` (with `none` for unparseable data).
Network effects are modelled by explicit outcome parameters (`Bool` for a
single POST, `Nat → Bool` for a retried one).
-/

namespace Pmcell

/-- Entry of the `categoriesVisited` collection of `UserAnalytics`. -/
structure CategoryVisit where
  name : String
  visits : Nat
  lastVisit : Nat
  hasCartItems : Bool
  categoryId : Option String
deriving Repr, DecidableEq

/-- Entry of the `searchTerms` collection of `UserAnalytics`. -/
structure SearchTermEntry where
  term : String
  count : Nat
  lastSearch : Nat
deriving Repr, DecidableEq

/-- Entry of the `productsViewed` collection of `UserAnalytics`. -/
structure ProductView where
  id : String
  name : String
  category : String
  visits : Nat
  lastView : Nat
  addedToCart : Bool
deriving Repr, DecidableEq

/-- The `type` union of a cart event. -/
inductive CartEventType where
  | add | remove | update | clear | complete | abandon
deriving Repr, DecidableEq

/-- Entry of the `cartEvents` log of `UserAnalytics`. Optional JS fields are `Option`. -/
structure CartEvent where
  type : CartEventType
  productId : String
  productName : Option String
  quantity : ℚ
  unitPrice : Option ℚ
  totalPrice : Option ℚ
  timestamp : Nat
deriving Repr, DecidableEq

/-- The `UserAnalytics` interface: the session record persisted under the
`pmcell_analytics` storage key. -/
structure UserAnalytics where
  sessionId : String
  startTime : Nat
  lastActivity : Nat
  timeOnSite : Nat
  categoriesVisited : List CategoryVisit
  searchTerms : List SearchTermEntry
  productsViewed : List ProductView
  cartEvents : List CartEvent
  lastCartActivity : Nat
  whatsappCollected : Option String
  whatsappCollectedAt : Option Nat
deriving Repr, DecidableEq

/-- Constant `CART_ABANDON_TIME = 1 * 60 * 1000` (milliseconds). -/
def CART_ABANDON_TIME : Int := 1 * 60 * 1000

/-- Source method `Analytics.createNewSession`: fresh session with empty collections and
`lastCartActivity = 0`.  The generated session id is passed in (the source
derives it from `Date.now()` and `Math.random()`). -/
def createNewSession (freshId : String) (now : Nat) : UserAnalytics :=
  { sessionId := freshId
    startTime := now
    lastActivity := now
    timeOnSite := 0
    categoriesVisited := []
    searchTerms := []
    productsViewed := []
    cartEvents := []
    lastCartActivity := 0
    whatsappCollected := none
    whatsappCollectedAt := none }

/-- JavaScript `Array.prototype.slice(-n)` (for `n > 0`): the last `n`
elements of the list (the whole list when it is shorter). -/
def takeLast (n : Nat) (l : List α) : List α :=
  l.drop (l.length - n)

/-- Mutation of the element returned by `Array.prototype.find`: apply `f` to
the first element satisfying `p`, leave the rest unchanged. -/
def updateFirst (p : α → Bool) (f : α → α) : List α → List α
  | [] => []
  | x :: xs => if p x then f x :: xs else x :: updateFirst p f xs

/-- Source method `Analytics.updateLastActivity` (the in-memory mutation part):
`lastActivity = Date.now()`, `timeOnSite = Date.now() - startTime`. -/
def updateLastActivity (a : UserAnalytics) (now : Nat) : UserAnalytics :=
  { a with lastActivity := now, timeOnSite := now - a.startTime }

/-- The cart-event record literal pushed by `Analytics.trackCartEvent`:
`totalPrice: unitPrice ? unitPrice * quantity : undefined` — note the JS
truthiness test, under which a present but zero `unitPrice` also yields
`undefined`. -/
def mkCartEvent (now : Nat) (type : CartEventType) (productId : String)
    (quantity : ℚ) (productName : Option String) (unitPrice : Option ℚ) :
    CartEvent :=
  { type := type
    productId := productId
    productName := productName
    quantity := quantity
    unitPrice := unitPrice
    totalPrice :=
      match unitPrice with
      | some u => if u = 0 then none else some (u * quantity)
      | none => none
    timestamp := now }

/-- Source method `Analytics.trackCartEvent` as a pure state transform (the in-memory and
persisted session mutation; the fire-and-forget network pushes are modelled
separately).  Mirrors the source order: `updateLastActivity`, push the event,
set `lastCartActivity`, on `add` flip `addedToCart` on the first matching
`ProductView` and `hasCartItems` on the first `CategoryVisit` matching that
product category,
then truncate the log to the last 100 entries. -/
def trackCartEvent (a : UserAnalytics) (now : Nat) (type : CartEventType)
    (productId : String) (quantity : ℚ) (productName : Option String)
    (unitPrice : Option ℚ) : UserAnalytics :=
  let a1 := updateLastActivity a now
  let ev := mkCartEvent now type productId quantity productName unitPrice
  let a2 := { a1 with
    cartEvents := a1.cartEvents ++ [ev]
    lastCartActivity := now }
  let a3 :=
    if type = CartEventType.add then
      let pv := a2.productsViewed.find? (fun p => p.id = productId)
      let a' := { a2 with
        productsViewed := updateFirst (fun p => p.id = productId)
          (fun p => { p with addedToCart := true }) a2.productsViewed }
      match pv with
      | some p => { a' with
          categoriesVisited := updateFirst (fun c => c.name = p.category)
            (fun c => { c with hasCartItems := true }) a'.categoriesVisited }
      | none => a'
    else a2
  { a3 with cartEvents := takeLast 100 a3.cartEvents }

/-! Section: load and persist (`loadAnalytics`, `saveAnalytics`). -/

/-- Source method `Analytics.loadAnalytics`.  The `pmcell_analytics` storage slot is
modelled as `Option (Option UserAnalytics)`: the outer `Option` is the result
of `localStorage.getItem` (`none` = absent), the inner one the outcome of
`JSON.parse` on the stored string (`none` = unparseable).  The source calls
`JSON.parse(stored)` with no `try`/`catch`, so an unparseable value makes
`loadAnalytics` throw (a `SyntaxError`), modelled as `Except.error`; an
absent value, or a parsed session whose `lastActivity` is more than 24h old,
falls back to `createNewSession`. -/
def loadAnalytics (stored : Option (Option UserAnalytics)) (now : Nat)
    (freshId : String) : Except String UserAnalytics :=
  match stored with
  | none => Except.ok (createNewSession freshId now)
  | some parseResult =>
    match parseResult with
    | none => Except.error "SyntaxError: unexpected token in JSON"
    | some parsed =>
      if (now : Int) - (parsed.lastActivity : Int) > 24 * 60 * 60 * 1000 then
        Except.ok (createNewSession freshId now)
      else
        Except.ok parsed

/-- Source method `Analytics.saveAnalytics`: `localStorage.setItem(storageKey,
JSON.stringify(analytics))` with no `try`/`catch`.  `setItemFails` models the
storage state in which `setItem` throws (e.g. `QuotaExceededError` on a full
store): the exception is not caught and the session is not written. -/
def saveAnalytics (setItemFails : Bool) (a : UserAnalytics) :
    Except String (Option UserAnalytics) :=
  if setItemFails then Except.error "QuotaExceededError"
  else Except.ok (some a)

/-- Source method `Analytics.trackCategoryVisit` as a pure transform on the session. -/
def trackCategoryVisitPure (a : UserAnalytics) (now : Nat)
    (categoryName : String) (categoryId : Option String) : UserAnalytics :=
  let a1 := updateLastActivity a now
  let visited :=
    if a1.categoriesVisited.any (fun c => c.name = categoryName) then
      updateFirst (fun c => c.name = categoryName)
        (fun c => { c with
          visits := c.visits + 1
          lastVisit := now
          categoryId := match categoryId with
            | some cid => if cid = "" then c.categoryId else some cid
            | none => c.categoryId }) a1.categoriesVisited
    else
      a1.categoriesVisited ++
        [{ name := categoryName, visits := 1, lastVisit := now,
           hasCartItems := false, categoryId := categoryId }]
  { a1 with categoriesVisited :=
      visited.mergeSort (fun x y => y.visits ≤ x.visits) }

/-- Source method `Analytics.trackCategoryVisit` including the persistence calls.  Both
`updateLastActivity` (called first) and the trailing `saveAnalytics` invoke
`localStorage.setItem` with no `try`/`catch` anywhere on the path, so a
storage-write failure propagates synchronously to the caller. -/
def trackCategoryVisit (setItemFails : Bool) (a : UserAnalytics) (now : Nat)
    (categoryName : String) (categoryId : Option String) :
    Except String UserAnalytics :=
  if setItemFails then Except.error "QuotaExceededError"
  else Except.ok (trackCategoryVisitPure a now categoryName categoryId)

/-- Source method `Analytics.trackCartEvent` including the persistence calls: the first
thing it does is `updateLastActivity`, whose `saveAnalytics` call reaches the
unguarded `localStorage.setItem`; a storage-write failure therefore
propagates synchronously out of the recorder. -/
def trackCartEventE (setItemFails : Bool) (a : UserAnalytics) (now : Nat)
    (type : CartEventType) (productId : String) (quantity : ℚ)
    (productName : Option String) (unitPrice : Option ℚ) :
    Except String UserAnalytics :=
  if setItemFails then Except.error "QuotaExceededError"
  else Except.ok (trackCartEvent a now type productId quantity productName unitPrice)

/-! Section: server sync engine (`saveAnalyticsToServer`, `saveToLocalQueue`). -/

/-- An `analytics_queue` entry built by `Analytics.saveToLocalQueue`. -/
structure QueueItem where
  sessionId : String
  timestamp : Nat
  data : UserAnalytics
  retries : Nat
deriving Repr, DecidableEq

/-- Source method `Analytics.saveToLocalQueue`: push the snapshot and keep only the 50 most
recent items (`queue.slice(-50)`). -/
def saveToLocalQueue (queue : List QueueItem) (a : UserAnalytics)
    (now : Nat) : List QueueItem :=
  takeLast 50 (queue ++
    [{ sessionId := a.sessionId, timestamp := now, data := a, retries := 0 }])

/-- Outcome of the single fetch of `/api/analytics/save` performed by one
`saveAnalyticsToServer` invocation, as the `catch` block of the source
classifies it. -/
inductive FetchOutcome where
  /-- `response.ok` -/
  | ok
  /-- HTTP 503 whose body carries `fallback: true` -/
  | fallback503
  /-- a network/timeout error or an HTTP 5xx error (`isNetworkError ||
  isServerError` in the source) -/
  | recoverableError
  /-- any other thrown error (non-retryable) -/
  | permanentError
deriving Repr, DecidableEq

/-- Observable action taken by one `saveAnalyticsToServer` invocation. -/
inductive SyncAction where
  /-- the `retryCount >= MAX` guard fired: snapshot handed to the local queue
  without contacting the server -/
  | queuedByGuard
  /-- 2xx response: counter reset, local queue processed -/
  | success
  /-- 503 + `fallback`: counter reset, no retry, no enqueue -/
  | fallbackStop
  /-- recoverable failure below the ceiling: `setTimeout` re-invocation after
  the given backoff delay (ms) -/
  | scheduledRetry (delay : Nat)
  /-- failure at the ceiling or non-recoverable: snapshot handed to the local
  queue -/
  | failedToQueue
deriving Repr, DecidableEq

/-- In-flight sync state: the `saveToServerRetryCount` field plus the
persisted `analytics_queue`. -/
structure SyncState where
  retryCount : Nat
  queue : List QueueItem
deriving Repr, DecidableEq

/-- Constant `MAX_SERVER_SAVE_RETRIES = 3`. -/
def MAX_SERVER_SAVE_RETRIES : Nat := 3

/-- One invocation of `Analytics.saveAnalyticsToServer`.  Mirrors the source:
the top guard `retryCount >= MAX` routes straight to `saveToLocalQueue` (and
does not change the counter); success and 503-fallback reset the counter to
0; a recoverable error increments the counter and either schedules a retry
after `2^retryCount * 2500` ms (when still below the ceiling) or hands the
snapshot to the queue; a permanent error increments and hands to the queue.
No branch that hands to the queue resets the counter. -/
def saveAnalyticsToServer (st : SyncState) (a : UserAnalytics) (now : Nat)
    (outcome : FetchOutcome) : SyncState × SyncAction :=
  if st.retryCount ≥ MAX_SERVER_SAVE_RETRIES then
    ({ st with queue := saveToLocalQueue st.queue a now }, SyncAction.queuedByGuard)
  else
    match outcome with
    | FetchOutcome.ok =>
        ({ st with retryCount := 0 }, SyncAction.success)
    | FetchOutcome.fallback503 =>
        ({ st with retryCount := 0 }, SyncAction.fallbackStop)
    | FetchOutcome.recoverableError =>
        let rc := st.retryCount + 1
        if rc < MAX_SERVER_SAVE_RETRIES then
          ({ st with retryCount := rc }, SyncAction.scheduledRetry (2 ^ rc * 2500))
        else
          ({ st with retryCount := rc, queue := saveToLocalQueue st.queue a now },
           SyncAction.failedToQueue)
    | FetchOutcome.permanentError =>
        ({ st with retryCount := st.retryCount + 1,
                   queue := saveToLocalQueue st.queue a now },
         SyncAction.failedToQueue)

/-- Run a sequence of `saveAnalyticsToServer` invocations (each with the
outcome its fetch would have), returning the final state and the list of
actions taken. -/
def runSync (st : SyncState) (a : UserAnalytics) (now : Nat) :
    List FetchOutcome → SyncState × List SyncAction
  | [] => (st, [])
  | o :: os =>
    let (st', act) := saveAnalyticsToServer st a now o
    let (st'', acts) := runSync st' a now os
    (st'', act :: acts)

/-! Section: webhook settings resolution and dispatch (`getWebhookSettings`,
`sendWebhook`) -/

/-- A row of the `/api/webhook-settings` response. -/
structure DbWebhookSetting where
  webhookType : String
  enabled : Bool
  environment : String
deriving Repr, DecidableEq

/-- Resolved per-type configuration (`{ enabled, environment }`). -/
structure WebhookConfig where
  enabled : Bool
  environment : String
deriving Repr, DecidableEq

/-- JavaScript `String.prototype.toLowerCase()`, modelled character-wise. -/
def toLowerCase (s : String) : String := ⟨s.data.map Char.toLower⟩

/-- Assignment `obj[key] = value` on a JS object modelled as an association
list: replace the entry for `key` if present, append otherwise. -/
def setAssoc (key : String) (value : WebhookConfig) :
    List (String × WebhookConfig) → List (String × WebhookConfig)
  | [] => [(key, value)]
  | (k, v) :: rest =>
    if k = key then (k, value) :: rest else (k, v) :: setAssoc key value rest

/-- Property read `obj[key]` on the association-list object. -/
def lookupAssoc (settings : List (String × WebhookConfig)) (key : String) :
    Option WebhookConfig :=
  (settings.find? (fun kv => kv.1 = key)).map (fun kv => kv.2)

/-- The `dbSettings.forEach` conversion loop of `getWebhookSettings`:
`settings[setting.webhookType] = { enabled: setting.enabled, environment:
setting.environment.toLowerCase() }`. -/
def buildSettings (db : List DbWebhookSetting) : List (String × WebhookConfig) :=
  db.foldl
    (fun acc s => setAssoc s.webhookType
      { enabled := s.enabled, environment := toLowerCase s.environment } acc)
    []

/-- Source method `Analytics.getWebhookSettings` on the path where the settings fetch
succeeds (`fetchResult = some db`): in development return the converted
settings unchanged; otherwise apply the production transform
`enabled := setting.enabled && setting.environment === "production"`.
When the fetch fails, fall back to all-disabled/`test` in development and
all-enabled/`production` otherwise. -/
def getWebhookSettings (isDevelopment : Bool)
    (fetchResult : Option (List DbWebhookSetting)) :
    List (String × WebhookConfig) :=
  match fetchResult with
  | some db =>
    let settings := buildSettings db
    if isDevelopment then settings
    else
      settings.map (fun kv =>
        (kv.1, { enabled := kv.2.enabled && kv.2.environment = "production",
                 environment := kv.2.environment }))
  | none =>
    if isDevelopment then
      [("whatsappCollected", ⟨false, "test"⟩),
       ("orderCompleted", ⟨false, "test"⟩),
       ("cartAbandoned", ⟨false, "test"⟩),
       ("analyticsUpdate", ⟨false, "test"⟩)]
    else
      [("whatsappCollected", ⟨true, "production"⟩),
       ("orderCompleted", ⟨true, "production"⟩),
       ("cartAbandoned", ⟨true, "production"⟩),
       ("analyticsUpdate", ⟨true, "production"⟩)]

/-- POST attempts performed by the retry loop of `Analytics.sendWebhook`
once the event type is enabled: up to `budget` attempts, stopping at the
first success (`postOutcomes i` is the outcome of the `i`-th POST). -/
def postsWithRetries (budget : Nat) (postOutcomes : Nat → Bool) (i : Nat) : Nat :=
  match budget with
  | 0 => 0
  | b + 1 => if postOutcomes i then 1 else 1 + postsWithRetries b postOutcomes (i + 1)

/-- Number of POSTs performed by `Analytics.sendWebhook(eventType, data)`
(with the default `maxRetries = 2`, i.e. at most 3 attempts) given the
resolved settings: a missing or disabled configuration returns before any
POST (`if (!webhookConfig?.enabled) return`). -/
def sendWebhookPosts (resolved : List (String × WebhookConfig))
    (eventType : String) (postOutcomes : Nat → Bool) : Nat :=
  match lookupAssoc resolved eventType with
  | none => 0
  | some cfg =>
    if cfg.enabled then postsWithRetries 3 postOutcomes 0 else 0

/-! Section: cart abandonment detector (`checkForAbandonedCart`,
`setupCartAbandonTimer`, the timer callback, `checkAbandonedCartGlobal`) -/

/-- An item of the externally persisted cart (`cart-storage`,
`cart.state.items[…]`). -/
structure CartItem where
  productId : String
  quantity : ℚ
  name : Option String
  image : Option String
deriving Repr, DecidableEq

/-- Source helper `removeImagesFromCartItems`: strip the `image` key from every item. -/
def removeImagesFromCartItems (items : List CartItem) : List CartItem :=
  items.map (fun i => { i with image := none })

/-- Source method `Analytics.sendCartAbandonedWebhook` reduced to its dispatch decision:
`true` iff it reaches `sendWebhook` with event type `cartAbandoned`, which requires a
present `cart-storage` blob with a non-empty `state.items`. -/
def sendCartAbandonedWebhook (cart : Option (List CartItem)) : Bool :=
  match cart with
  | some items => decide (items.length > 0)
  | none => false

/-- Source method `Analytics.checkForAbandonedCart` (the one-shot check run at store
construction).  Returns the updated session and whether the `cartAbandoned`
webhook dispatch (`sendCartAbandonedWebhook`) was invoked.  Mirrors the
source guards in order: absent cart blob, empty `state.items`,
`lastCartActivity === 0`, and the `timeSinceLastCart >= CART_ABANDON_TIME`
threshold; on firing, `lastCartActivity` is reset to 0 unconditionally
(the dispatch is fire-and-forget, its delivery outcome is never awaited). -/
def checkForAbandonedCart (a : UserAnalytics) (cart : Option (List CartItem))
    (now : Nat) : UserAnalytics × Bool :=
  match cart with
  | none => (a, false)
  | some items =>
    if items.length = 0 then (a, false)
    else if a.lastCartActivity = 0 then (a, false)
    else
      let timeSinceLastCart : Int := (now : Int) - (a.lastCartActivity : Int)
      if timeSinceLastCart ≥ CART_ABANDON_TIME then
        let fired := sendCartAbandonedWebhook (some items)
        ({ a with lastCartActivity := 0 }, fired)
      else
        (a, false)

/-- What `Analytics.setupCartAbandonTimer` does with the timer. -/
inductive TimerAction where
  /-- no `setTimeout` call was made (beyond clearing any previous timer) -/
  | noTimer
  /-- `setTimeout(…, remaining)` was called -/
  | schedule (remaining : Int)
deriving Repr, DecidableEq

/-- Source method `Analytics.setupCartAbandonTimer`: clears any previous timer; when
`lastCartActivity > 0` computes `remaining = CART_ABANDON_TIME − (now −
lastCartActivity)` and schedules the timer for `remaining` when positive.
Returns the timer action together with whether the arming call itself
dispatched a `cartAbandoned` webhook — which no branch of the source does:
the `remaining <= 0` branch only logs `"Tempo já expirado, não configurando
timer"`. -/
def setupCartAbandonTimer (a : UserAnalytics) (now : Nat) :
    TimerAction × Bool :=
  if a.lastCartActivity > 0 then
    let timeSinceLastCart : Int := (now : Int) - (a.lastCartActivity : Int)
    let remainingTime := CART_ABANDON_TIME - timeSinceLastCart
    if remainingTime > 0 then (TimerAction.schedule remainingTime, false)
    else (TimerAction.noTimer, false)
  else (TimerAction.noTimer, false)

/-- The callback armed by `setupCartAbandonTimer`: invoke
`sendCartAbandonedWebhook` and reset `lastCartActivity` to 0 — with no guard
and without awaiting delivery. -/
def cartAbandonTimerCallback (a : UserAnalytics)
    (cart : Option (List CartItem)) : UserAnalytics × Bool :=
  (({ a with lastCartActivity := 0 }), sendCartAbandonedWebhook cart)

/-- Result of one run of the global sweep `checkAbandonedCartGlobal`. -/
structure SweepResult where
  /-- the `pmcell_analytics` storage slot after the run -/
  store : Option UserAnalytics
  /-- number of webhook POSTs attempted -/
  posts : Nat
  /-- the boolean the function returns -/
  returned : Bool
deriving Repr, DecidableEq

/-- Source function `checkAbandonedCartGlobal`: the module-level periodic sweep.  Re-derives
abandonment from persisted storage; on expiry it fetches the raw webhook
settings (`settingsFetch`, `none` = fetch failed or non-OK), requires the
first `cartAbandoned` row to be enabled, POSTs the webhook once (`postOk` is
the delivery outcome), and only on a successful POST writes
`lastCartActivity = 0` back to storage and returns `true`; every failure path
leaves the stored session unchanged and returns `false`. -/
def checkAbandonedCartGlobal (store : Option UserAnalytics)
    (cart : Option (List CartItem)) (now : Nat)
    (settingsFetch : Option (List DbWebhookSetting)) (postOk : Bool) :
    SweepResult :=
  match cart with
  | none => ⟨store, 0, false⟩
  | some items =>
    if items.length = 0 then ⟨store, 0, false⟩
    else
      match store with
      | none => ⟨none, 0, false⟩
      | some analytics =>
        if analytics.lastCartActivity = 0 then ⟨store, 0, false⟩
        else
          let timeSinceLastCart : Int :=
            (now : Int) - (analytics.lastCartActivity : Int)
          if timeSinceLastCart ≥ CART_ABANDON_TIME then
            match settingsFetch with
            | none => ⟨store, 0, false⟩
            | some settings =>
              match settings.find? (fun s => s.webhookType = "cartAbandoned") with
              | none => ⟨store, 0, false⟩
              | some cartSetting =>
                if cartSetting.enabled then
                  if postOk then
                    ⟨some { analytics with lastCartActivity := 0 }, 1, true⟩
                  else
                    ⟨store, 1, false⟩
                else ⟨store, 0, false⟩
          else ⟨store, 0, false⟩

/-- The 150-event append scenario of the cap claim: record `n` consecutive
`add` cart events (product id `p`, quantity 1, no name, no unit price) with
timestamps `0, 1, …, n-1`. -/
def appendAddEvents (a : UserAnalytics) (n : Nat) : UserAnalytics :=
  (List.range n).foldl
    (fun acc t => trackCartEvent acc t CartEventType.add "p" 1 none none) a

/-! Helper lemmas about the list combinators used by the embedding. -/

theorem takeLast_length_le (n : Nat) (l : List α) : (takeLast n l).length ≤ n := by
  simp only [takeLast, List.length_drop]
  omega

theorem getLast?_takeLast_concat (n : Nat) (hn : 0 < n) (l : List α) (x : α) :
    (takeLast n (l ++ [x])).getLast? = some x := by
  unfold takeLast
  rw [List.drop_append_of_le_length (by simp; omega)]
  exact List.getLast?_concat _

theorem find?_updateFirst (p : α → Bool) (f : α → α) (l : List α)
    (hf : ∀ x, p (f x) = p x) :
    (updateFirst p f l).find? p = (l.find? p).map f := by
  induction l with
  | nil => rfl
  | cons x xs ih =>
    by_cases h : p x = true
    · rw [updateFirst, if_pos h, List.find?_cons_of_pos _ ((hf x).trans h),
        List.find?_cons_of_pos _ h, Option.map_some']
    · rw [updateFirst, if_neg h, List.find?_cons_of_neg _ (by simpa using h),
        List.find?_cons_of_neg _ (by simpa using h), ih]

/-- Through every branch of `trackCartEvent`, the resulting event log is the
old log with the new event appended, truncated to the last 100 entries. -/
theorem trackCartEvent_cartEvents (a : UserAnalytics) (now : Nat)
    (type : CartEventType) (pid : String) (q : ℚ) (pn : Option String)
    (up : Option ℚ) :
    (trackCartEvent a now type pid q pn up).cartEvents
      = takeLast 100 (a.cartEvents ++ [mkCartEvent now type pid q pn up]) := by
  unfold trackCartEvent
  dsimp only
  split
  · cases h : List.find? (fun p => p.id = pid)
      (updateLastActivity a now).productsViewed <;> rfl
  · rfl

/-- Through every branch of `trackCartEvent`, `lastCartActivity` is set to
the event timestamp. -/
theorem trackCartEvent_lastCartActivity (a : UserAnalytics) (now : Nat)
    (type : CartEventType) (pid : String) (q : ℚ) (pn : Option String)
    (up : Option ℚ) :
    (trackCartEvent a now type pid q pn up).lastCartActivity = now := by
  unfold trackCartEvent
  dsimp only
  split
  · cases h : List.find? (fun p => p.id = pid)
      (updateLastActivity a now).productsViewed <;> rfl
  · rfl

/-- On an `add` event, `productsViewed` is the old collection with the first
entry matching the product id getting `addedToCart := true`. -/
theorem trackCartEvent_productsViewed_add (a : UserAnalytics) (now : Nat)
    (pid : String) (q : ℚ) (pn : Option String) (up : Option ℚ) :
    (trackCartEvent a now CartEventType.add pid q pn up).productsViewed
      = updateFirst (fun p => p.id = pid)
          (fun p => { p with addedToCart := true }) a.productsViewed := by
  unfold trackCartEvent
  dsimp only
  rw [if_pos rfl]
  cases h : List.find? (fun p => p.id = pid)
    (updateLastActivity a now).productsViewed <;> rfl

/-- On an `add` event whose product id has a viewed-product entry,
`categoriesVisited` is the old collection with the first entry matching that
product category getting `hasCartItems := true`. -/
theorem trackCartEvent_categoriesVisited_add (a : UserAnalytics) (now : Nat)
    (pid : String) (q : ℚ) (pn : Option String) (up : Option ℚ)
    (pv : ProductView)
    (h1 : a.productsViewed.find? (fun p => p.id = pid) = some pv) :
    (trackCartEvent a now CartEventType.add pid q pn up).categoriesVisited
      = updateFirst (fun c => c.name = pv.category)
          (fun c => { c with hasCartItems := true }) a.categoriesVisited := by
  unfold trackCartEvent
  dsimp only
  rw [if_pos rfl]
  have h1' : List.find? (fun p => p.id = pid)
      (updateLastActivity a now).productsViewed = some pv := h1
  rw [h1']
  rfl

/-! Claim theorems. -/

/-- C6: for every cart event recorded with `type = add` for product id
`pid`, `trackCartEvent` sets `lastCartActivity` to the current time, sets
`addedToCart = true` on the `ProductView` with id `pid`, and sets
`hasCartItems = true` on the `CategoryVisit` matching that product
category (existence of the two entries being the hypotheses implicit in the
claim wording). -/
theorem C6_add_event_side_effects (a : UserAnalytics) (now : Nat)
    (pid : String) (q : ℚ) (pn : Option String) (up : Option ℚ)
    (pv : ProductView) (cv : CategoryVisit)
    (h1 : a.productsViewed.find? (fun p => p.id = pid) = some pv)
    (h2 : a.categoriesVisited.find? (fun c => c.name = pv.category) = some cv) :
    (trackCartEvent a now CartEventType.add pid q pn up).lastCartActivity = now
    ∧ (trackCartEvent a now CartEventType.add pid q pn up).productsViewed.find?
        (fun p => p.id = pid) = some { pv with addedToCart := true }
    ∧ (trackCartEvent a now CartEventType.add pid q pn up).categoriesVisited.find?
        (fun c => c.name = pv.category) = some { cv with hasCartItems := true } := by
  refine ⟨trackCartEvent_lastCartActivity .., ?_, ?_⟩
  · rw [trackCartEvent_productsViewed_add,
      find?_updateFirst (fun p => p.id = pid)
        (fun p => { p with addedToCart := true }) a.productsViewed
        (fun x => rfl),
      h1, Option.map_some']
  · rw [trackCartEvent_categoriesVisited_add a now pid q pn up pv h1,
      find?_updateFirst (fun c => c.name = pv.category)
        (fun c => { c with hasCartItems := true }) a.categoriesVisited
        (fun x => rfl),
      h2, Option.map_some']

/-- Witness for C6 at a concrete session: one viewed product `p1` in
category `Capas`, one visited category `Capas`; an `add` event at time 99
flips both flags and stamps `lastCartActivity`. -/
theorem C6_add_event_side_effects_witness :
    let pv : ProductView :=
      { id := "p1", name := "Capinha", category := "Capas", visits := 1,
        lastView := 5, addedToCart := false }
    let cv : CategoryVisit :=
      { name := "Capas", visits := 1, lastVisit := 4, hasCartItems := false,
        categoryId := none }
    let a := { createNewSession "s" 0 with
      productsViewed := [pv], categoriesVisited := [cv] }
    (trackCartEvent a 99 CartEventType.add "p1" 2 none (some 10)).lastCartActivity = 99
    ∧ (trackCartEvent a 99 CartEventType.add "p1" 2 none (some 10)).productsViewed.find?
        (fun p => p.id = "p1") = some { pv with addedToCart := true }
    ∧ (trackCartEvent a 99 CartEventType.add "p1" 2 none (some 10)).categoriesVisited.find?
        (fun c => c.name = pv.category) = some { cv with hasCartItems := true } :=
  C6_add_event_side_effects _ 99 "p1" 2 none (some 10) _ _ (by decide) (by decide)

set_option maxRecDepth 100000 in
/-- C7: the cart-event log invariant — after any `trackCartEvent` call the
log holds at most 100 entries, and appending 150 events to a fresh session
leaves exactly the 100 most recent ones, oldest-first order preserved. -/
theorem C7_cart_event_log_cap :
    (∀ (a : UserAnalytics) (now : Nat) (type : CartEventType) (pid : String)
        (q : ℚ) (pn : Option String) (up : Option ℚ),
      ((trackCartEvent a now type pid q pn up).cartEvents).length ≤ 100)
    ∧ (appendAddEvents (createNewSession "s" 0) 150).cartEvents
        = ((List.range 150).drop 50).map
            (fun t => mkCartEvent t CartEventType.add "p" 1 none none) := by
  constructor
  · intro a now type pid q pn up
    rw [trackCartEvent_cartEvents]
    exact takeLast_length_le ..
  · decide

/-- C8 counterexample: a cart event recorded with `unitPrice = 0` present
and `quantity = 5` present stores `totalPrice` as absent, not as
`0 × 5 = 0` — the source computes `unitPrice ? unitPrice * quantity :
undefined`, and `0` is falsy in JavaScript. -/
theorem C8_totalPrice_counterexample :
    (trackCartEvent (createNewSession "s" 0) 5 CartEventType.add "p1" 5 none
        (some 0)).cartEvents
      = [mkCartEvent 5 CartEventType.add "p1" 5 none (some 0)]
    ∧ (mkCartEvent 5 CartEventType.add "p1" 5 none (some 0)).unitPrice = some 0
    ∧ (mkCartEvent 5 CartEventType.add "p1" 5 none (some 0)).totalPrice = none
    ∧ (none : Option ℚ) ≠ some ((0 : ℚ) * 5) := by decide

/-- C8 as amended: every appended cart event stores
`totalPrice = unitPrice × quantity` when `unitPrice` is present and nonzero,
and stores no `totalPrice` when `unitPrice` is absent or zero. -/
theorem C8_totalPrice (a : UserAnalytics) (now : Nat) (type : CartEventType)
    (pid : String) (q : ℚ) (pn : Option String) (up : Option ℚ) :
    (trackCartEvent a now type pid q pn up).cartEvents.getLast?
      = some (mkCartEvent now type pid q pn up)
    ∧ (∀ u : ℚ, up = some u → u ≠ 0 →
        (mkCartEvent now type pid q pn up).totalPrice = some (u * q))
    ∧ (up = none ∨ up = some 0 →
        (mkCartEvent now type pid q pn up).totalPrice = none) := by
  refine ⟨?_, ?_, ?_⟩
  · rw [trackCartEvent_cartEvents]
    exact getLast?_takeLast_concat 100 (by norm_num) _ _
  · rintro u rfl hu
    simp [mkCartEvent, hu]
  · rintro (rfl | rfl) <;> simp [mkCartEvent]

/-- Witness for C8: a concrete `add` of 3 units at unit price 10 stores
`totalPrice = 30`. -/
theorem C8_totalPrice_witness :
    (trackCartEvent (createNewSession "s" 0) 7 CartEventType.add "p2" 3 none
        (some 10)).cartEvents.getLast?
      = some (mkCartEvent 7 CartEventType.add "p2" 3 none (some 10))
    ∧ (mkCartEvent 7 CartEventType.add "p2" 3 none (some 10)).totalPrice
        = some ((10 : ℚ) * 3) := by
  have h := C8_totalPrice (createNewSession "s" 0) 7 CartEventType.add "p2" 3
    none (some 10)
  exact ⟨h.1, h.2.1 10 rfl (by norm_num)⟩

/-- C4 (code bug): `loadAnalytics` does fall back to a fresh session when
storage is absent or the stored session is more than 24h stale, but corrupt
(unparseable) stored data makes it throw — the source calls
`JSON.parse(stored)` with no `try`/`catch`, unlike every other
`JSON.parse(localStorage.getItem(…))` site in the module.  The claim (and
the stated never-throw policy) is violated at the corrupt input. -/
theorem C4_load_fallback_bug :
    loadAnalytics none 1000 "fresh" = Except.ok (createNewSession "fresh" 1000)
    ∧ loadAnalytics (some (some (createNewSession "old" 0)))
        (25 * 60 * 60 * 1000) "fresh"
        = Except.ok (createNewSession "fresh" (25 * 60 * 60 * 1000))
    ∧ loadAnalytics (some (some (createNewSession "old" 0)))
        (23 * 60 * 60 * 1000) "fresh"
        = Except.ok (createNewSession "old" 0)
    ∧ loadAnalytics (some none) 1000 "fresh"
        = Except.error "SyntaxError: unexpected token in JSON" :=
  ⟨rfl, rfl, rfl, rfl⟩

/-- C5 (code bug): the event recorders throw synchronously when the local
persistence write fails — `saveAnalytics` calls `localStorage.setItem` with
no `try`/`catch` (unlike `saveToLocalQueue`, which guards its own `setItem`),
and every recorder reaches it via `updateLastActivity` before doing anything
else, so a `QuotaExceededError` propagates to the UI caller instead of being
swallowed.  With a healthy store the recorders return normally. -/
theorem C5_recorder_throws_on_persist_failure :
    trackCategoryVisit true (createNewSession "s" 0) 10 "Capas" none
      = Except.error "QuotaExceededError"
    ∧ trackCartEventE true (createNewSession "s" 0) 10 CartEventType.add "p1" 1
        none none
      = Except.error "QuotaExceededError"
    ∧ saveAnalytics true (createNewSession "s" 0)
      = Except.error "QuotaExceededError"
    ∧ trackCategoryVisit false (createNewSession "s" 0) 10 "Capas" none
      = Except.ok (trackCategoryVisitPure (createNewSession "s" 0) 10 "Capas" none) :=
  ⟨rfl, rfl, rfl, rfl⟩

/-- C3 counterexample: starting from retry count 0, three consecutive
recoverable sync failures hand the snapshot to the local queue but leave the
in-flight retry counter at 3, not 0; the next sync attempt (even one whose
fetch would succeed) is routed straight to the queue by the
`retryCount >= MAX_SERVER_SAVE_RETRIES` guard, contrary to the claim that
it starts again from a retry count of 0. -/
theorem C3_retry_reset_counterexample :
    (runSync ⟨0, []⟩ (createNewSession "s" 0) 100
        [FetchOutcome.recoverableError, FetchOutcome.recoverableError,
         FetchOutcome.recoverableError]).1.retryCount = 3
    ∧ (runSync ⟨0, []⟩ (createNewSession "s" 0) 100
        [FetchOutcome.recoverableError, FetchOutcome.recoverableError,
         FetchOutcome.recoverableError]).1.queue.length = 1
    ∧ (3 : Nat) ≠ 0
    ∧ (saveAnalyticsToServer
        (runSync ⟨0, []⟩ (createNewSession "s" 0) 100
          [FetchOutcome.recoverableError, FetchOutcome.recoverableError,
           FetchOutcome.recoverableError]).1
        (createNewSession "s" 0) 200 FetchOutcome.ok).2
      = SyncAction.queuedByGuard := by decide

/-- C3 as amended: a sync call that fails 3 consecutive times (with
backoffs 5s and 10s between the attempts) is handed to the local queue, and
the in-flight retry counter is left at the ceiling of 3 — it is not reset —
so every subsequent sync attempt is handed straight to the local queue by
the guard without contacting the server. -/
theorem C3_retry_ceiling (q : List QueueItem) (a : UserAnalytics) (now : Nat)
    (o : FetchOutcome) :
    runSync ⟨0, q⟩ a now
        [FetchOutcome.recoverableError, FetchOutcome.recoverableError,
         FetchOutcome.recoverableError]
      = (⟨3, saveToLocalQueue q a now⟩,
         [SyncAction.scheduledRetry 5000, SyncAction.scheduledRetry 10000,
          SyncAction.failedToQueue])
    ∧ saveAnalyticsToServer ⟨3, saveToLocalQueue q a now⟩ a now o
      = (⟨3, saveToLocalQueue (saveToLocalQueue q a now) a now⟩,
         SyncAction.queuedByGuard) := by
  constructor
  · norm_num [runSync, saveAnalyticsToServer, MAX_SERVER_SAVE_RETRIES]
  · norm_num [saveAnalyticsToServer, MAX_SERVER_SAVE_RETRIES]

/-- C2 counterexample: with `lastCartActivity = 1` at time 70000 the
computed remaining time is ≤ 0, and `setupCartAbandonTimer` neither
schedules a timer nor fires a webhook — the source merely logs and returns,
contrary to the claim that it fires immediately. -/
theorem C2_arming_counterexample :
    CART_ABANDON_TIME - ((70000 : Int) - (1 : Nat)) ≤ 0
    ∧ setupCartAbandonTimer
        { createNewSession "s" 0 with lastCartActivity := 1 } 70000
      = (TimerAction.noTimer, false) := by decide

/-- C2 as amended: whenever the abandonment timer is (re)armed with
`lastCartActivity > 0`, the detector computes
`remaining = CART_ABANDON_TIME − (now − lastCartActivity)`; if
`remaining > 0` a timeout is scheduled for `remaining`, and if
`remaining ≤ 0` no timer is scheduled and no webhook is fired by the arming
call (the already-expired case is covered only by the construction-time
one-shot check and the periodic sweep).  Right after a cart event recorded
at `now` the re-arming call schedules the full threshold, since
`trackCartEvent` has just set `lastCartActivity = now`. -/
theorem C2_arming (a : UserAnalytics) (now : Nat)
    (type : CartEventType) (pid : String) (qt : ℚ) (pn : Option String)
    (up : Option ℚ) (h : a.lastCartActivity > 0) :
    (CART_ABANDON_TIME - ((now : Int) - (a.lastCartActivity : Int)) > 0 →
      setupCartAbandonTimer a now
        = (TimerAction.schedule
            (CART_ABANDON_TIME - ((now : Int) - (a.lastCartActivity : Int))),
           false))
    ∧ (CART_ABANDON_TIME - ((now : Int) - (a.lastCartActivity : Int)) ≤ 0 →
      setupCartAbandonTimer a now = (TimerAction.noTimer, false))
    ∧ (0 < now →
      setupCartAbandonTimer (trackCartEvent a now type pid qt pn up) now
        = (TimerAction.schedule CART_ABANDON_TIME, false)) := by
  refine ⟨?_, ?_, ?_⟩
  · intro hrem
    rw [setupCartAbandonTimer, if_pos h, if_pos hrem]
  · intro hrem
    rw [setupCartAbandonTimer, if_pos h, if_neg (by omega)]
  · intro hnow
    rw [setupCartAbandonTimer,
      if_pos (by rw [trackCartEvent_lastCartActivity]; exact hnow),
      trackCartEvent_lastCartActivity, if_pos (by simp [CART_ABANDON_TIME]),
      sub_self, sub_zero]

/-- Witness for C2: concrete instantiations of both branches of the amended
arming behavior. -/
theorem C2_arming_witness :
    setupCartAbandonTimer
        { createNewSession "s" 0 with lastCartActivity := 1 } 30000
      = (TimerAction.schedule 30001, false)
    ∧ setupCartAbandonTimer
        { createNewSession "s" 0 with lastCartActivity := 1 } 70000
      = (TimerAction.noTimer, false) := by
  have h := C2_arming { createNewSession "s" 0 with lastCartActivity := 1 }
    30000 CartEventType.add "p" 1 none none (by decide)
  have h2 := C2_arming { createNewSession "s" 0 with lastCartActivity := 1 }
    70000 CartEventType.add "p" 1 none none (by decide)
  refine ⟨?_, h2.2.1 (by decide)⟩
  have := h.1 (by decide)
  simpa using this

/-! Helper lemmas for the abandonment check paths and the settings map. -/

theorem checkForAbandonedCart_fires (a : UserAnalytics) (items : List CartItem)
    (now : Nat) (hL : 0 < a.lastCartActivity)
    (hT : (now : Int) - (a.lastCartActivity : Int) ≥ CART_ABANDON_TIME)
    (hI : items ≠ []) :
    checkForAbandonedCart a (some items) now
      = ({ a with lastCartActivity := 0 }, true) := by
  have hlen : ¬ items.length = 0 := by simpa [List.length_eq_zero] using hI
  have hlca : ¬ a.lastCartActivity = 0 := by omega
  unfold checkForAbandonedCart
  dsimp only
  rw [if_neg hlen, if_neg hlca, if_pos hT]
  unfold sendCartAbandonedWebhook
  simp only [Prod.mk.injEq, decide_eq_true_eq]
  exact ⟨trivial, by omega⟩

theorem checkForAbandonedCart_zeroActivity (a : UserAnalytics)
    (items : List CartItem) (now : Nat) (h : a.lastCartActivity = 0) :
    checkForAbandonedCart a (some items) now = (a, false) := by
  unfold checkForAbandonedCart
  dsimp only
  by_cases hlen : items.length = 0
  · rw [if_pos hlen]
  · rw [if_neg hlen, if_pos h]

theorem cartAbandonTimerCallback_fires (a : UserAnalytics)
    (items : List CartItem) (hI : items ≠ []) :
    cartAbandonTimerCallback a (some items)
      = ({ a with lastCartActivity := 0 }, true) := by
  unfold cartAbandonTimerCallback sendCartAbandonedWebhook
  simp only [Prod.mk.injEq, decide_eq_true_eq]
  exact ⟨trivial, by cases items with
    | nil => exact absurd rfl hI
    | cons x xs => simp⟩

theorem checkAbandonedCartGlobal_zeroActivity (a : UserAnalytics)
    (items : List CartItem) (now : Nat)
    (sf : Option (List DbWebhookSetting)) (postOk : Bool)
    (h : a.lastCartActivity = 0) :
    checkAbandonedCartGlobal (some a) (some items) now sf postOk
      = ⟨some a, 0, false⟩ := by
  unfold checkAbandonedCartGlobal
  dsimp only
  by_cases hlen : items.length = 0
  · rw [if_pos hlen]
  · rw [if_neg hlen, if_pos h]

theorem checkAbandonedCartGlobal_settingsFail (a : UserAnalytics)
    (items : List CartItem) (now : Nat) (postOk : Bool)
    (hL : 0 < a.lastCartActivity)
    (hT : (now : Int) - (a.lastCartActivity : Int) ≥ CART_ABANDON_TIME)
    (hI : items ≠ []) :
    checkAbandonedCartGlobal (some a) (some items) now none postOk
      = ⟨some a, 0, false⟩ := by
  have hlen : ¬ items.length = 0 := by simpa [List.length_eq_zero] using hI
  have hlca : ¬ a.lastCartActivity = 0 := by omega
  unfold checkAbandonedCartGlobal
  dsimp only
  rw [if_neg hlen, if_neg hlca, if_pos hT]

theorem checkAbandonedCartGlobal_expired (a : UserAnalytics)
    (items : List CartItem) (now : Nat) (db : List DbWebhookSetting)
    (cs : DbWebhookSetting) (postOk : Bool)
    (hL : 0 < a.lastCartActivity)
    (hT : (now : Int) - (a.lastCartActivity : Int) ≥ CART_ABANDON_TIME)
    (hI : items ≠ [])
    (hfind : db.find? (fun s => s.webhookType = "cartAbandoned") = some cs) :
    checkAbandonedCartGlobal (some a) (some items) now (some db) postOk
      = if cs.enabled then
          (if postOk then ⟨some { a with lastCartActivity := 0 }, 1, true⟩
           else ⟨some a, 1, false⟩)
        else ⟨some a, 0, false⟩ := by
  have hlen : ¬ items.length = 0 := by simpa [List.length_eq_zero] using hI
  have hlca : ¬ a.lastCartActivity = 0 := by omega
  unfold checkAbandonedCartGlobal
  dsimp only
  rw [if_neg hlen, if_neg hlca, if_pos hT, hfind]

theorem lookupAssoc_map (g : WebhookConfig → WebhookConfig)
    (l : List (String × WebhookConfig)) (ty : String) :
    lookupAssoc (l.map (fun kv => (kv.1, g kv.2))) ty
      = (lookupAssoc l ty).map g := by
  induction l with
  | nil => rfl
  | cons kv rest ih =>
    unfold lookupAssoc at *
    by_cases h : kv.1 = ty
    · rw [List.map_cons, List.find?_cons_of_pos _ (by simpa using h),
        List.find?_cons_of_pos _ (by simpa using h)]
      rfl
    · rw [List.map_cons, List.find?_cons_of_neg _ (by simpa using h),
        List.find?_cons_of_neg _ (by simpa using h)]
      exact ih

/-- C9: in a non-development environment with a successful settings fetch,
the resolved configuration of every webhook type carried by the fetch has
`enabled = (fetched enabled AND fetched environment = "production")`, the
environment comparison being made on the lowercased stored value; a type
stored as enabled with a non-production environment therefore resolves to
disabled, and `sendWebhook` for it performs no POST at all — a silent
no-op. -/
theorem C9_production_gating (db : List DbWebhookSetting) (ty : String)
    (cfg : WebhookConfig) (outcomes : Nat → Bool)
    (h : lookupAssoc (buildSettings db) ty = some cfg) :
    lookupAssoc (getWebhookSettings false (some db)) ty
      = some { enabled := cfg.enabled && cfg.environment = "production",
               environment := cfg.environment }
    ∧ (cfg.environment ≠ "production" →
        sendWebhookPosts (getWebhookSettings false (some db)) ty outcomes = 0) := by
  have hres : lookupAssoc (getWebhookSettings false (some db)) ty
      = some { enabled := cfg.enabled && cfg.environment = "production",
               environment := cfg.environment } := by
    show lookupAssoc ((buildSettings db).map
      (fun kv => (kv.1,
        ({ enabled := kv.2.enabled && kv.2.environment = "production",
           environment := kv.2.environment } : WebhookConfig)))) ty = _
    rw [lookupAssoc_map
      (fun c => { enabled := c.enabled && c.environment = "production",
                  environment := c.environment }) (buildSettings db) ty, h]
    rfl
  refine ⟨hres, fun hne => ?_⟩
  unfold sendWebhookPosts
  rw [hres]
  simp [hne]

/-- Witness for C9: a `cartAbandoned` row stored as enabled with environment
`TEST` resolves, in production, to a disabled configuration, and its
dispatch performs zero POSTs. -/
theorem C9_production_gating_witness :
    lookupAssoc (getWebhookSettings false
        (some [{ webhookType := "cartAbandoned", enabled := true,
                 environment := "TEST" }])) "cartAbandoned"
      = some { enabled := false, environment := "test" }
    ∧ sendWebhookPosts (getWebhookSettings false
        (some [{ webhookType := "cartAbandoned", enabled := true,
                 environment := "TEST" }])) "cartAbandoned"
        (fun _ => true) = 0 := by
  have h := C9_production_gating
    [{ webhookType := "cartAbandoned", enabled := true, environment := "TEST" }]
    "cartAbandoned" { enabled := true, environment := "test" }
    (fun _ => true) (by decide)
  exact ⟨by rw [h.1]; decide, h.2 (by decide)⟩

/-- C10: the periodic global sweep resets `lastCartActivity` to 0 only when
the webhook POST succeeds; when the settings fetch fails, the webhook type is
disabled, or the POST fails, the persisted session is left unchanged (so a
later sweep attempts to fire again), while the timer callback and the
initialization one-shot check reset `lastCartActivity` to 0 after dispatching
without consulting any delivery outcome. -/
theorem C10_sweep_resets_only_on_success (a : UserAnalytics)
    (items : List CartItem) (now : Nat) (db : List DbWebhookSetting)
    (cs : DbWebhookSetting) (postOk : Bool)
    (hL : 0 < a.lastCartActivity)
    (hT : (now : Int) - (a.lastCartActivity : Int) ≥ CART_ABANDON_TIME)
    (hI : items ≠ [])
    (hfind : db.find? (fun s => s.webhookType = "cartAbandoned") = some cs) :
    checkAbandonedCartGlobal (some a) (some items) now none postOk
      = ⟨some a, 0, false⟩
    ∧ (cs.enabled = false →
        checkAbandonedCartGlobal (some a) (some items) now (some db) postOk
          = ⟨some a, 0, false⟩)
    ∧ (cs.enabled = true →
        checkAbandonedCartGlobal (some a) (some items) now (some db) false
          = ⟨some a, 1, false⟩)
    ∧ (cs.enabled = true →
        checkAbandonedCartGlobal (some a) (some items) now (some db) true
          = ⟨some { a with lastCartActivity := 0 }, 1, true⟩)
    ∧ (cs.enabled = true →
        checkAbandonedCartGlobal
          (checkAbandonedCartGlobal (some a) (some items) now (some db) false).store
          (some items) now (some db) true
          = ⟨some { a with lastCartActivity := 0 }, 1, true⟩)
    ∧ (cartAbandonTimerCallback a (some items)).1.lastCartActivity = 0
    ∧ (checkForAbandonedCart a (some items) now).1.lastCartActivity = 0 := by
  have hexp := fun p => checkAbandonedCartGlobal_expired a items now db cs p hL hT hI hfind
  refine ⟨checkAbandonedCartGlobal_settingsFail a items now postOk hL hT hI,
    fun hEn => ?_, fun hEn => ?_, fun hEn => ?_, fun hEn => ?_, ?_, ?_⟩
  · rw [hexp postOk, hEn]
    rfl
  · rw [hexp false, hEn]
    rfl
  · rw [hexp true, hEn]
    rfl
  · rw [hexp false, hEn]
    show checkAbandonedCartGlobal (some a) (some items) now (some db) true = _
    rw [hexp true, hEn]
    rfl
  · rw [cartAbandonTimerCallback_fires a items hI]
  · rw [checkForAbandonedCart_fires a items now hL hT hI]

/-- Witness for C10 at a concrete expired session, non-empty cart and an
enabled `cartAbandoned` row: a failed POST leaves the stored session
untouched, a successful one zeroes `lastCartActivity`. -/
theorem C10_sweep_resets_only_on_success_witness :
    checkAbandonedCartGlobal
        (some { createNewSession "s" 0 with lastCartActivity := 1 })
        (some [{ productId := "p1", quantity := 2, name := some "Capinha",
                 image := some "data" }])
        70000
        (some [{ webhookType := "cartAbandoned", enabled := true,
                 environment := "PRODUCTION" }]) false
      = ⟨some { createNewSession "s" 0 with lastCartActivity := 1 }, 1, false⟩
    ∧ checkAbandonedCartGlobal
        (some { createNewSession "s" 0 with lastCartActivity := 1 })
        (some [{ productId := "p1", quantity := 2, name := some "Capinha",
                 image := some "data" }])
        70000
        (some [{ webhookType := "cartAbandoned", enabled := true,
                 environment := "PRODUCTION" }]) true
      = ⟨some { { createNewSession "s" 0 with lastCartActivity := 1 } with
            lastCartActivity := 0 }, 1, true⟩ := by
  have h := C10_sweep_resets_only_on_success
    { createNewSession "s" 0 with lastCartActivity := 1 }
    [{ productId := "p1", quantity := 2, name := some "Capinha",
       image := some "data" }]
    70000
    [{ webhookType := "cartAbandoned", enabled := true,
       environment := "PRODUCTION" }]
    { webhookType := "cartAbandoned", enabled := true,
      environment := "PRODUCTION" }
    false (by decide) (by decide) (by decide) (by decide)
  exact ⟨h.2.2.1 rfl, h.2.2.2.1 rfl⟩

/-- C1 counterexample: for the periodic-sweep path the claim fails — with
`lastCartActivity = 1`, a non-empty cart and the threshold elapsed, a sweep
whose POST fails dispatches one webhook yet leaves `lastCartActivity` at 1,
and a second sweep run immediately afterwards dispatches a second webhook. -/
theorem C1_fire_once_counterexample :
    (checkAbandonedCartGlobal
        (some { createNewSession "s" 0 with lastCartActivity := 1 })
        (some [{ productId := "p1", quantity := 1, name := none, image := none }])
        70000
        (some [{ webhookType := "cartAbandoned", enabled := true,
                 environment := "PRODUCTION" }]) false).posts = 1
    ∧ (checkAbandonedCartGlobal
        (some { createNewSession "s" 0 with lastCartActivity := 1 })
        (some [{ productId := "p1", quantity := 1, name := none, image := none }])
        70000
        (some [{ webhookType := "cartAbandoned", enabled := true,
                 environment := "PRODUCTION" }]) false).store
      = some { createNewSession "s" 0 with lastCartActivity := 1 }
    ∧ ({ createNewSession "s" 0 with lastCartActivity := 1 } :
        UserAnalytics).lastCartActivity ≠ 0
    ∧ (checkAbandonedCartGlobal
        (checkAbandonedCartGlobal
          (some { createNewSession "s" 0 with lastCartActivity := 1 })
          (some [{ productId := "p1", quantity := 1, name := none, image := none }])
          70000
          (some [{ webhookType := "cartAbandoned", enabled := true,
                   environment := "PRODUCTION" }]) false).store
        (some [{ productId := "p1", quantity := 1, name := none, image := none }])
        70030
        (some [{ webhookType := "cartAbandoned", enabled := true,
                 environment := "PRODUCTION" }]) false).posts = 1 := by decide

/-- C1 as amended: fire-once holds for the armed timer callback and the
initialization one-shot check unconditionally, and for the periodic sweep
when its settings fetch succeeds with `cartAbandoned` enabled and the POST
succeeds: each such run dispatches the `cartAbandoned` webhook exactly once
and resets `lastCartActivity` to 0, after which an abandonment check run
immediately afterwards (one-shot check or sweep, under any settings and
delivery outcome) dispatches nothing. -/
theorem C1_fire_once (a : UserAnalytics) (items : List CartItem)
    (now now2 : Nat) (db : List DbWebhookSetting) (cs : DbWebhookSetting)
    (sf : Option (List DbWebhookSetting)) (postOk : Bool)
    (hL : 0 < a.lastCartActivity)
    (hT : (now : Int) - (a.lastCartActivity : Int) ≥ CART_ABANDON_TIME)
    (hI : items ≠ [])
    (hfind : db.find? (fun s => s.webhookType = "cartAbandoned") = some cs)
    (hEn : cs.enabled = true) :
    checkForAbandonedCart a (some items) now
      = ({ a with lastCartActivity := 0 }, true)
    ∧ cartAbandonTimerCallback a (some items)
      = ({ a with lastCartActivity := 0 }, true)
    ∧ checkAbandonedCartGlobal (some a) (some items) now (some db) true
      = ⟨some { a with lastCartActivity := 0 }, 1, true⟩
    ∧ checkForAbandonedCart { a with lastCartActivity := 0 } (some items) now2
      = ({ a with lastCartActivity := 0 }, false)
    ∧ checkAbandonedCartGlobal (some { a with lastCartActivity := 0 })
        (some items) now2 sf postOk
      = ⟨some { a with lastCartActivity := 0 }, 0, false⟩ := by
  refine ⟨checkForAbandonedCart_fires a items now hL hT hI,
    cartAbandonTimerCallback_fires a items hI, ?_,
    checkForAbandonedCart_zeroActivity _ items now2 rfl,
    checkAbandonedCartGlobal_zeroActivity _ items now2 sf postOk rfl⟩
  rw [checkAbandonedCartGlobal_expired a items now db cs true hL hT hI hfind, hEn]
  rfl

/-- Witness for C1: the three firing paths at a concrete expired state each
dispatch once and zero `lastCartActivity`, and the follow-up checks stay
quiet. -/
theorem C1_fire_once_witness :
    checkForAbandonedCart { createNewSession "s" 0 with lastCartActivity := 1 }
        (some [{ productId := "p1", quantity := 1, name := none, image := none }])
        70000
      = ({ { createNewSession "s" 0 with lastCartActivity := 1 } with
            lastCartActivity := 0 }, true)
    ∧ checkAbandonedCartGlobal
        (some { { createNewSession "s" 0 with lastCartActivity := 1 } with
            lastCartActivity := 0 })
        (some [{ productId := "p1", quantity := 1, name := none, image := none }])
        70030 none true
      = ⟨some { { createNewSession "s" 0 with lastCartActivity := 1 } with
            lastCartActivity := 0 }, 0, false⟩ := by
  have h := C1_fire_once
    { createNewSession "s" 0 with lastCartActivity := 1 }
    [{ productId := "p1", quantity := 1, name := none, image := none }]
    70000 70030
    [{ webhookType := "cartAbandoned", enabled := true,
       environment := "PRODUCTION" }]
    { webhookType := "cartAbandoned", enabled := true,
      environment := "PRODUCTION" }
    none true (by decide) (by decide) (by decide) (by decide) rfl
  exact ⟨h.1, h.2.2.2.2⟩

end Pmcell
